import Mathlib

/-!
Verification of the PROS GPS driver shim (`src/src/devices/vdml_gps.c`) and
the USD forwarding wrapper (`src/src/devices/vdml_usd.cpp`).

The accessor bodies are translated directly from the C source.  The port-claim
machinery (`claim_port_i` / `claim_port_f` / `claim_port_try` / `return_port`
from `vdml/vdml.h`) and the registry belong to the same repository but are not
part of the excerpt, so they are modelled from the specification.  The vendor
device API (`vexDeviceGps*`) is a closed external collaborator and is modelled
as a per-port oracle state plus a trace of the calls made into it.

C `double` values are only ever copied by this code (no arithmetic), so they
are embedded as an inductive type with a distinguished error element standing
for the floating sentinel `PROS_ERR_F` and rational payloads for ordinary
values.
-/

/-- A C `double` as used by this driver: either the floating error sentinel
`PROS_ERR_F` or a finite value (the driver only copies doubles, never computes
with them). -/
inductive Flt where
  | errF : Flt
  | val : ℚ → Flt
deriving DecidableEq, Repr

/-- Modelled from the spec: the integer error sentinel `PROS_ERR`
("a reserved negative/maximal value"); PROS uses `INT32_MAX`. -/
def PROS_ERR : Int := 2147483647

/-- Modelled from the spec: the success return value `PROS_SUCCESS` forwarded
by the integer-returning accessors. -/
def PROS_SUCCESS : Int := 1

/-- Source: `#define GPS_MINIMUM_DATA_RATE 5` in `vdml_gps.c`. -/
def GPS_MINIMUM_DATA_RATE : Nat := 5

/-- Modelled from the spec: the registry has one slot per physical port,
port indices range over 0–20. -/
def numPorts : Nat := 21

/-- Device type tag stored in a registry slot. -/
inductive DeviceType where
  | gps
  | other
deriving DecidableEq, Repr

/-- Modelled from the spec: a registry slot — whether a device has ever been
registered there, its type tag, and the exclusive-claim flag. -/
structure Slot where
  installed : Bool
  devType : DeviceType
  claimed : Bool
deriving DecidableEq, Repr

/-- The vendor attitude record `V5_DeviceGpsAttitude` (fields read by this
driver). -/
structure Attitude where
  position_x : Flt
  position_y : Flt
  pitch : Flt
  roll : Flt
  yaw : Flt
deriving DecidableEq, Repr

/-- The vendor raw-triple record `V5_DeviceGpsRaw`. -/
structure RawData where
  x : Flt
  y : Flt
  z : Flt
deriving DecidableEq, Repr

/-- One invocation of a vendor device API function (`vexDeviceGps*`),
recorded in the call trace. -/
inductive VendorCall where
  | originSet (index : Nat) (x y : Flt)
  | initialPositionSet (index : Nat) (x y h : Flt)
  | dataRateSet (index : Nat) (rate : Nat)
  | originGet (index : Nat)
  | errorGet (index : Nat)
  | degreesGet (index : Nat)
  | headingGet (index : Nat)
  | attitudeGet (index : Nat)
  | rawGyroGet (index : Nat)
  | rawAccelGet (index : Nat)
deriving DecidableEq, Repr

/-- The world the driver acts on: the registry slots, the oracle state of the
vendor device behind each port index, and the trace of vendor API calls. -/
structure GpsState where
  slots : Nat → Slot
  origin : Nat → Flt × Flt
  attitude : Nat → Attitude
  gyro : Nat → RawData
  accel : Nat → RawData
  errVal : Nat → Flt
  degrees : Nat → Flt
  headingRaw : Nat → Flt
  calls : List VendorCall

/-- The public `port` argument is a C `uint8_t` and every accessor passes
`port - 1`, which wraps modulo 256. -/
def portIndex (port : Nat) : Nat := (port + 255) % 256

/-- Modelled from the spec: `claim_port_try` — validate the range, look the
descriptor up, check the type, then try the exclusive lock; each failure
leaves the registry untouched and yields `false`, success sets the
claimed-flag and yields `true`. -/
def claim_port_try (st : GpsState) (idx : Nat) (expected : DeviceType) :
    Bool × GpsState :=
  if numPorts ≤ idx then (false, st)
  else if !(st.slots idx).installed then (false, st)
  else if (st.slots idx).devType ≠ expected then (false, st)
  else if (st.slots idx).claimed then (false, st)
  else (true, { st with
    slots := fun i =>
      if i = idx then { st.slots idx with claimed := true } else st.slots i })

/-- Modelled from the spec: `return_port` — release the exclusive lock
unconditionally (clear the claimed-flag) and forward the value as the
operation's result. -/
def return_port {α : Type} (st : GpsState) (idx : Nat) (v : α) : α × GpsState :=
  (v, { st with
    slots := fun i =>
      if i = idx then { st.slots idx with claimed := false } else st.slots i })

/-- Modelled from the spec: the integer-returning claim variant
`claim_port_i` — on any claim failure the whole operation returns `PROS_ERR`
at once; on success the operation body runs with the claim held. -/
def claim_port_i (st : GpsState) (idx : Nat)
    (body : GpsState → Int × GpsState) : Int × GpsState :=
  let c := claim_port_try st idx DeviceType.gps
  if c.1 then body c.2 else (PROS_ERR, c.2)

/-- Modelled from the spec: the float-returning claim variant `claim_port_f` —
identical to `claim_port_i` but the failure sentinel is `PROS_ERR_F`. -/
def claim_port_f (st : GpsState) (idx : Nat)
    (body : GpsState → Flt × GpsState) : Flt × GpsState :=
  let c := claim_port_try st idx DeviceType.gps
  if c.1 then body c.2 else (Flt.errF, c.2)

/-- Vendor call `vexDeviceGpsOriginSet`: stores the offset in the device and
logs the call. -/
def vexDeviceGpsOriginSet (st : GpsState) (idx : Nat) (x y : Flt) : GpsState :=
  { st with
    origin := fun i => if i = idx then (x, y) else st.origin i,
    calls := st.calls ++ [VendorCall.originSet idx x y] }

/-- Vendor call `vexDeviceGpsInitialPositionSet`: logged only (its effect is
internal to the closed device). -/
def vexDeviceGpsInitialPositionSet (st : GpsState) (idx : Nat)
    (x y h : Flt) : GpsState :=
  { st with calls := st.calls ++ [VendorCall.initialPositionSet idx x y h] }

/-- Vendor call `vexDeviceGpsDataRateSet`: logged with the rate the driver
forwards. -/
def vexDeviceGpsDataRateSet (st : GpsState) (idx : Nat) (rate : Nat) :
    GpsState :=
  { st with calls := st.calls ++ [VendorCall.dataRateSet idx rate] }

/-- Vendor call `vexDeviceGpsOriginGet`: reads the stored offset. -/
def vexDeviceGpsOriginGet (st : GpsState) (idx : Nat) :
    (Flt × Flt) × GpsState :=
  (st.origin idx, { st with calls := st.calls ++ [VendorCall.originGet idx] })

/-- Vendor call `vexDeviceGpsErrorGet`. -/
def vexDeviceGpsErrorGet (st : GpsState) (idx : Nat) : Flt × GpsState :=
  (st.errVal idx, { st with calls := st.calls ++ [VendorCall.errorGet idx] })

/-- Vendor call `vexDeviceGpsDegreesGet`. -/
def vexDeviceGpsDegreesGet (st : GpsState) (idx : Nat) : Flt × GpsState :=
  (st.degrees idx, { st with calls := st.calls ++ [VendorCall.degreesGet idx] })

/-- Vendor call `vexDeviceGpsHeadingGet`. -/
def vexDeviceGpsHeadingGet (st : GpsState) (idx : Nat) : Flt × GpsState :=
  (st.headingRaw idx,
   { st with calls := st.calls ++ [VendorCall.headingGet idx] })

/-- Vendor call `vexDeviceGpsAttitudeGet` (the `bRaw` flag is always `false`
in this driver): one read of the full attitude record. -/
def vexDeviceGpsAttitudeGet (st : GpsState) (idx : Nat) :
    Attitude × GpsState :=
  (st.attitude idx,
   { st with calls := st.calls ++ [VendorCall.attitudeGet idx] })

/-- Vendor call `vexDeviceGpsRawGyroGet`. -/
def vexDeviceGpsRawGyroGet (st : GpsState) (idx : Nat) : RawData × GpsState :=
  (st.gyro idx, { st with calls := st.calls ++ [VendorCall.rawGyroGet idx] })

/-- Vendor call `vexDeviceGpsRawAccelGet`. -/
def vexDeviceGpsRawAccelGet (st : GpsState) (idx : Nat) : RawData × GpsState :=
  (st.accel idx, { st with calls := st.calls ++ [VendorCall.rawAccelGet idx] })

/-- Public struct `gps_position_s_t` ({x, y}). -/
structure GpsPosition where
  x : Flt
  y : Flt
deriving DecidableEq, Repr

/-- Public struct `gps_status_s_t` ({x, y, pitch, roll, yaw}). -/
structure GpsStatus where
  x : Flt
  y : Flt
  pitch : Flt
  roll : Flt
  yaw : Flt
deriving DecidableEq, Repr

/-- Public struct `gps_orientation_s_t` ({pitch, roll, yaw}). -/
structure GpsOrientation where
  pitch : Flt
  roll : Flt
  yaw : Flt
deriving DecidableEq, Repr

/-- Public struct `gps_gyro_s_t` / `gps_accel_s_t` ({x, y, z}). -/
structure GpsRaw where
  x : Flt
  y : Flt
  z : Flt
deriving DecidableEq, Repr

/-- Source: `GPS_STATUS_ERR_INIT` — all five fields set to `PROS_ERR_F`. -/
def GPS_STATUS_ERR_INIT : GpsStatus :=
  { x := Flt.errF, y := Flt.errF, roll := Flt.errF, pitch := Flt.errF,
    yaw := Flt.errF }

/-- Source: `GPS_RAW_ERR_INIT` — all three fields set to `PROS_ERR_F`. -/
def GPS_RAW_ERR_INIT : GpsRaw :=
  { x := Flt.errF, y := Flt.errF, z := Flt.errF }

/-- Source: `gps_initialize_full`. -/
def gps_initialize_full (st : GpsState) (port : Nat)
    (xInitial yInitial headingInitial xOffset yOffset : Flt) :
    Int × GpsState :=
  claim_port_i st (portIndex port) (fun st1 =>
    let st2 := vexDeviceGpsOriginSet st1 (portIndex port) xOffset yOffset
    let st3 := vexDeviceGpsInitialPositionSet st2 (portIndex port)
      xInitial yInitial headingInitial
    return_port st3 (portIndex port) PROS_SUCCESS)

/-- Source: `gps_set_offset`. -/
def gps_set_offset (st : GpsState) (port : Nat) (xOffset yOffset : Flt) :
    Int × GpsState :=
  claim_port_i st (portIndex port) (fun st1 =>
    let st2 := vexDeviceGpsOriginSet st1 (portIndex port) xOffset yOffset
    return_port st2 (portIndex port) PROS_SUCCESS)

/-- Source: `gps_get_offset` — on claim failure returns the pre-built
`{PROS_ERR_F, PROS_ERR_F}` struct; otherwise one `vexDeviceGpsOriginGet`. -/
def gps_get_offset (st : GpsState) (port : Nat) : GpsPosition × GpsState :=
  let rtv : GpsPosition := { x := Flt.errF, y := Flt.errF }
  let c := claim_port_try st (portIndex port) DeviceType.gps
  if c.1 then
    let p := vexDeviceGpsOriginGet c.2 (portIndex port)
    return_port p.2 (portIndex port) { x := p.1.1, y := p.1.2 }
  else (rtv, c.2)

/-- Source: `gps_set_position`. -/
def gps_set_position (st : GpsState) (port : Nat)
    (xInitial yInitial headingInitial : Flt) : Int × GpsState :=
  claim_port_i st (portIndex port) (fun st1 =>
    let st2 := vexDeviceGpsInitialPositionSet st1 (portIndex port)
      xInitial yInitial headingInitial
    return_port st2 (portIndex port) PROS_SUCCESS)

/-- Source: `gps_set_data_rate` — the requested rate is a `uint32_t`; it is
raised to the 5 ms minimum, otherwise rounded down to a multiple of 5, and
forwarded. -/
def gps_set_data_rate (st : GpsState) (port : Nat) (rate : Nat) :
    Int × GpsState :=
  claim_port_i st (portIndex port) (fun st1 =>
    let rate2 :=
      if rate < GPS_MINIMUM_DATA_RATE then GPS_MINIMUM_DATA_RATE
      else rate - rate % GPS_MINIMUM_DATA_RATE
    let st2 := vexDeviceGpsDataRateSet st1 (portIndex port) rate2
    return_port st2 (portIndex port) PROS_SUCCESS)

/-- Source: `gps_get_error`. -/
def gps_get_error (st : GpsState) (port : Nat) : Flt × GpsState :=
  claim_port_f st (portIndex port) (fun st1 =>
    let p := vexDeviceGpsErrorGet st1 (portIndex port)
    return_port p.2 (portIndex port) p.1)

/-- Source: `gps_get_position_and_orientation` — one attitude read fanned out
into all five fields. -/
def gps_get_position_and_orientation (st : GpsState) (port : Nat) :
    GpsStatus × GpsState :=
  let c := claim_port_try st (portIndex port) DeviceType.gps
  if c.1 then
    let p := vexDeviceGpsAttitudeGet c.2 (portIndex port)
    return_port p.2 (portIndex port)
      { x := p.1.position_x, y := p.1.position_y, pitch := p.1.pitch,
        roll := p.1.roll, yaw := p.1.yaw }
  else (GPS_STATUS_ERR_INIT, c.2)

/-- Source: `gps_get_position` — one attitude read, x and y extracted. -/
def gps_get_position (st : GpsState) (port : Nat) : GpsPosition × GpsState :=
  let rtv : GpsPosition := { x := Flt.errF, y := Flt.errF }
  let c := claim_port_try st (portIndex port) DeviceType.gps
  if c.1 then
    let p := vexDeviceGpsAttitudeGet c.2 (portIndex port)
    return_port p.2 (portIndex port)
      { x := p.1.position_x, y := p.1.position_y }
  else (rtv, c.2)

/-- Source: `gps_get_position_x`. -/
def gps_get_position_x (st : GpsState) (port : Nat) : Flt × GpsState :=
  claim_port_f st (portIndex port) (fun st1 =>
    let p := vexDeviceGpsAttitudeGet st1 (portIndex port)
    return_port p.2 (portIndex port) p.1.position_x)

/-- Source: `gps_get_position_y`. -/
def gps_get_position_y (st : GpsState) (port : Nat) : Flt × GpsState :=
  claim_port_f st (portIndex port) (fun st1 =>
    let p := vexDeviceGpsAttitudeGet st1 (portIndex port)
    return_port p.2 (portIndex port) p.1.position_y)

/-- Source: `gps_get_orientation` — one attitude read, pitch/roll/yaw
extracted. -/
def gps_get_orientation (st : GpsState) (port : Nat) :
    GpsOrientation × GpsState :=
  let rtv : GpsOrientation :=
    { pitch := Flt.errF, roll := Flt.errF, yaw := Flt.errF }
  let c := claim_port_try st (portIndex port) DeviceType.gps
  if c.1 then
    let p := vexDeviceGpsAttitudeGet c.2 (portIndex port)
    return_port p.2 (portIndex port)
      { pitch := p.1.pitch, roll := p.1.roll, yaw := p.1.yaw }
  else (rtv, c.2)

/-- Source: `gps_get_pitch`. -/
def gps_get_pitch (st : GpsState) (port : Nat) : Flt × GpsState :=
  claim_port_f st (portIndex port) (fun st1 =>
    let p := vexDeviceGpsAttitudeGet st1 (portIndex port)
    return_port p.2 (portIndex port) p.1.pitch)

/-- Source: `gps_get_roll`. -/
def gps_get_roll (st : GpsState) (port : Nat) : Flt × GpsState :=
  claim_port_f st (portIndex port) (fun st1 =>
    let p := vexDeviceGpsAttitudeGet st1 (portIndex port)
    return_port p.2 (portIndex port) p.1.roll)

/-- Source: `gps_get_yaw`. -/
def gps_get_yaw (st : GpsState) (port : Nat) : Flt × GpsState :=
  claim_port_f st (portIndex port) (fun st1 =>
    let p := vexDeviceGpsAttitudeGet st1 (portIndex port)
    return_port p.2 (portIndex port) p.1.yaw)

/-- Source: `gps_get_heading`. -/
def gps_get_heading (st : GpsState) (port : Nat) : Flt × GpsState :=
  claim_port_f st (portIndex port) (fun st1 =>
    let p := vexDeviceGpsDegreesGet st1 (portIndex port)
    return_port p.2 (portIndex port) p.1)

/-- Source: `gps_get_heading_raw`. -/
def gps_get_heading_raw (st : GpsState) (port : Nat) : Flt × GpsState :=
  claim_port_f st (portIndex port) (fun st1 =>
    let p := vexDeviceGpsHeadingGet st1 (portIndex port)
    return_port p.2 (portIndex port) p.1)

/-- Source: `gps_get_gyro_rate` — one raw-gyro read fanned out into x, y, z. -/
def gps_get_gyro_rate (st : GpsState) (port : Nat) : GpsRaw × GpsState :=
  let c := claim_port_try st (portIndex port) DeviceType.gps
  if c.1 then
    let p := vexDeviceGpsRawGyroGet c.2 (portIndex port)
    return_port p.2 (portIndex port) { x := p.1.x, y := p.1.y, z := p.1.z }
  else (GPS_RAW_ERR_INIT, c.2)

/-- Source: `gps_get_gyro_rate_x`. -/
def gps_get_gyro_rate_x (st : GpsState) (port : Nat) : Flt × GpsState :=
  claim_port_f st (portIndex port) (fun st1 =>
    let p := vexDeviceGpsRawGyroGet st1 (portIndex port)
    return_port p.2 (portIndex port) p.1.x)

/-- Source: `gps_get_gyro_rate_y`. -/
def gps_get_gyro_rate_y (st : GpsState) (port : Nat) : Flt × GpsState :=
  claim_port_f st (portIndex port) (fun st1 =>
    let p := vexDeviceGpsRawGyroGet st1 (portIndex port)
    return_port p.2 (portIndex port) p.1.y)

/-- Source: `gps_get_gyro_rate_z`. -/
def gps_get_gyro_rate_z (st : GpsState) (port : Nat) : Flt × GpsState :=
  claim_port_f st (portIndex port) (fun st1 =>
    let p := vexDeviceGpsRawGyroGet st1 (portIndex port)
    return_port p.2 (portIndex port) p.1.z)

/-- Source: `gps_get_accel` — one raw-accel read fanned out into x, y, z. -/
def gps_get_accel (st : GpsState) (port : Nat) : GpsRaw × GpsState :=
  let c := claim_port_try st (portIndex port) DeviceType.gps
  if c.1 then
    let p := vexDeviceGpsRawAccelGet c.2 (portIndex port)
    return_port p.2 (portIndex port) { x := p.1.x, y := p.1.y, z := p.1.z }
  else (GPS_RAW_ERR_INIT, c.2)

/-- Source: `gps_get_accel_x`. -/
def gps_get_accel_x (st : GpsState) (port : Nat) : Flt × GpsState :=
  claim_port_f st (portIndex port) (fun st1 =>
    let p := vexDeviceGpsRawAccelGet st1 (portIndex port)
    return_port p.2 (portIndex port) p.1.x)

/-- Source: `gps_get_accel_y`. -/
def gps_get_accel_y (st : GpsState) (port : Nat) : Flt × GpsState :=
  claim_port_f st (portIndex port) (fun st1 =>
    let p := vexDeviceGpsRawAccelGet st1 (portIndex port)
    return_port p.2 (portIndex port) p.1.y)

/-- Source: `gps_get_accel_z`. -/
def gps_get_accel_z (st : GpsState) (port : Nat) : Flt × GpsState :=
  claim_port_f st (portIndex port) (fun st1 =>
    let p := vexDeviceGpsRawAccelGet st1 (portIndex port)
    return_port p.2 (portIndex port) p.1.z)

/-! ### Helper lemmas about the claim machinery -/

/-- A failed `claim_port_try` leaves the whole state untouched. -/
lemma claim_port_try_fst_false {st : GpsState} {idx : Nat} {t : DeviceType}
    (h : (claim_port_try st idx t).1 = false) :
    claim_port_try st idx t = (false, st) := by
  unfold claim_port_try at h ⊢
  split_ifs at h ⊢ <;> simp_all

/-- A successful `claim_port_try` only sets the claimed-flag of the slot. -/
lemma claim_port_try_fst_true {st : GpsState} {idx : Nat} {t : DeviceType}
    (h : (claim_port_try st idx t).1 = true) :
    claim_port_try st idx t = (true, { st with
      slots := fun i =>
        if i = idx then { st.slots idx with claimed := true }
        else st.slots i }) := by
  unfold claim_port_try at h ⊢
  split_ifs at h ⊢
  simp_all

/-- If the port index is in range, a device is installed there, the type tag
matches, and the slot is unclaimed, the claim succeeds. -/
lemma claim_port_try_success (st : GpsState) (idx : Nat) (t : DeviceType)
    (h1 : idx < numPorts) (h2 : (st.slots idx).installed = true)
    (h3 : (st.slots idx).devType = t) (h4 : (st.slots idx).claimed = false) :
    claim_port_try st idx t = (true, { st with
      slots := fun i =>
        if i = idx then { st.slots idx with claimed := true }
        else st.slots i }) := by
  unfold claim_port_try
  simp [Nat.not_le.mpr h1, h2, h3, h4]

/-- An out-of-range index fails the claim immediately. -/
lemma claim_port_try_out_of_range (st : GpsState) (idx : Nat) (t : DeviceType)
    (h : numPorts ≤ idx) : claim_port_try st idx t = (false, st) := by
  unfold claim_port_try
  simp [h]

/-! ### A concrete state used by the witness theorems -/

/-- A concrete world: every slot holds an unclaimed GPS device, the device
oracle carries distinct finite values, and the call trace is empty. -/
def demoState : GpsState where
  slots := fun _ => { installed := true, devType := DeviceType.gps,
                      claimed := false }
  origin := fun _ => (Flt.val 0, Flt.val 0)
  attitude := fun _ => { position_x := Flt.val 1, position_y := Flt.val 2,
                         pitch := Flt.val 3, roll := Flt.val 4,
                         yaw := Flt.val 5 }
  gyro := fun _ => { x := Flt.val 6, y := Flt.val 7, z := Flt.val 8 }
  accel := fun _ => { x := Flt.val 9, y := Flt.val 10, z := Flt.val 11 }
  errVal := fun _ => Flt.val 12
  degrees := fun _ => Flt.val 13
  headingRaw := fun _ => Flt.val 14
  calls := []

/-! ### C1: data-rate quantization -/

/-- C1: whenever the claim on the port succeeds, `gps_set_data_rate` forwards
to the device exactly the quantized rate `if rate < 5 then 5 else
rate - rate % 5`; in particular rate 0, 5, 7 forward 5, rate 12 forwards 10,
and rate 23 forwards 20. -/
theorem C1_data_rate_quantization (st : GpsState) (port : Nat) (rate : Nat)
    (h : (claim_port_try st (portIndex port) DeviceType.gps).1 = true) :
    (gps_set_data_rate st port rate).2.calls =
      st.calls ++ [VendorCall.dataRateSet (portIndex port)
        (if rate < 5 then 5 else rate - rate % 5)] ∧
    (gps_set_data_rate st port 0).2.calls =
      st.calls ++ [VendorCall.dataRateSet (portIndex port) 5] ∧
    (gps_set_data_rate st port 5).2.calls =
      st.calls ++ [VendorCall.dataRateSet (portIndex port) 5] ∧
    (gps_set_data_rate st port 7).2.calls =
      st.calls ++ [VendorCall.dataRateSet (portIndex port) 5] ∧
    (gps_set_data_rate st port 12).2.calls =
      st.calls ++ [VendorCall.dataRateSet (portIndex port) 10] ∧
    (gps_set_data_rate st port 23).2.calls =
      st.calls ++ [VendorCall.dataRateSet (portIndex port) 20] := by
  have hc := claim_port_try_fst_true h
  refine ⟨?_, ?_, ?_, ?_, ?_, ?_⟩ <;>
    simp [gps_set_data_rate, claim_port_i, hc, vexDeviceGpsDataRateSet,
      return_port, GPS_MINIMUM_DATA_RATE]

/-- C1 witness: at the concrete demo state and port 1 the hypothesis holds and
the quantization facts evaluate as stated. -/
theorem C1_witness :
    (claim_port_try demoState (portIndex 1) DeviceType.gps).1 = true ∧
    ((gps_set_data_rate demoState 1 7).2.calls =
      demoState.calls ++ [VendorCall.dataRateSet (portIndex 1)
        (if 7 < 5 then 5 else 7 - 7 % 5)] ∧
     (gps_set_data_rate demoState 1 0).2.calls =
      demoState.calls ++ [VendorCall.dataRateSet (portIndex 1) 5] ∧
     (gps_set_data_rate demoState 1 5).2.calls =
      demoState.calls ++ [VendorCall.dataRateSet (portIndex 1) 5] ∧
     (gps_set_data_rate demoState 1 7).2.calls =
      demoState.calls ++ [VendorCall.dataRateSet (portIndex 1) 5] ∧
     (gps_set_data_rate demoState 1 12).2.calls =
      demoState.calls ++ [VendorCall.dataRateSet (portIndex 1) 10] ∧
     (gps_set_data_rate demoState 1 23).2.calls =
      demoState.calls ++ [VendorCall.dataRateSet (portIndex 1) 20]) :=
  ⟨rfl, C1_data_rate_quantization demoState 1 7 rfl⟩

/-! ### C2: attitude fan-out into position and orientation -/

/-- C2: if the attitude oracle at the claimed port holds
{position_x 1, position_y 2, pitch 3, roll 4, yaw 5} and the claim succeeds,
then `gps_get_position` returns (x 1, y 2) and `gps_get_orientation` returns
roll 4, pitch 3, yaw 5 (the struct field order is pitch, roll, yaw). -/
theorem C2_attitude_fan_out (st : GpsState) (port : Nat)
    (h : (claim_port_try st (portIndex port) DeviceType.gps).1 = true)
    (ha : st.attitude (portIndex port) =
      { position_x := Flt.val 1, position_y := Flt.val 2, pitch := Flt.val 3,
        roll := Flt.val 4, yaw := Flt.val 5 }) :
    (gps_get_position st port).1 = { x := Flt.val 1, y := Flt.val 2 } ∧
    (gps_get_orientation st port).1 =
      { pitch := Flt.val 3, roll := Flt.val 4, yaw := Flt.val 5 } := by
  have hc := claim_port_try_fst_true h
  constructor <;>
    simp [gps_get_position, gps_get_orientation, hc, vexDeviceGpsAttitudeGet,
      return_port, ha]

/-- C2 witness: the demo state carries exactly that attitude record at port
index 0, and the two accessors evaluate as stated. -/
theorem C2_witness :
    ((claim_port_try demoState (portIndex 1) DeviceType.gps).1 = true ∧
     demoState.attitude (portIndex 1) =
      { position_x := Flt.val 1, position_y := Flt.val 2, pitch := Flt.val 3,
        roll := Flt.val 4, yaw := Flt.val 5 }) ∧
    ((gps_get_position demoState 1).1 = { x := Flt.val 1, y := Flt.val 2 } ∧
     (gps_get_orientation demoState 1).1 =
      { pitch := Flt.val 3, roll := Flt.val 4, yaw := Flt.val 5 }) :=
  ⟨⟨rfl, rfl⟩, C2_attitude_fan_out demoState 1 rfl rfl⟩

/-! ### C3: claimed-flag after an accessor returns -/

/-- A state in which port index 0 is held by another claimant: an accessor
that fails its claim there returns without releasing anything. -/
def heldState : GpsState :=
  { demoState with
    slots := fun _ => { installed := true, devType := DeviceType.gps,
                        claimed := true } }

/-- C3 counterexample: at a state where port index 0 is already claimed by
another holder, `gps_get_offset` on port 1 fails its claim and returns, yet
the claimed-flag of that port is still true afterwards — so the claim that
the flag is false after every accessor returns, on every path, is false. -/
theorem C3_counterexample :
    ((gps_get_offset heldState 1).2.slots (portIndex 1)).claimed = true :=
  rfl

/-- After `return_port` the released slot's claimed-flag is false. -/
lemma return_port_claimed_false {α : Type} (st : GpsState) (idx : Nat)
    (v : α) : ((return_port st idx v).2.slots idx).claimed = false := by
  simp [return_port]

/-- Any `claim_port_f`-shaped accessor whose body ends by releasing the port
leaves the claimed-flag false whenever it was false at entry. -/
lemma claim_port_f_claimed_after (st : GpsState) (idx : Nat)
    (body : GpsState → Flt × GpsState)
    (hbody : ∀ s, ((body s).2.slots idx).claimed = false)
    (h : (st.slots idx).claimed = false) :
    ((claim_port_f st idx body).2.slots idx).claimed = false := by
  unfold claim_port_f
  cases hb : (claim_port_try st idx DeviceType.gps).1
  · simp [claim_port_try_fst_false hb, h]
  · simp only [hb, if_true]
    exact hbody _

/-- Same release property for the integer-returning claim pattern. -/
lemma claim_port_i_claimed_after (st : GpsState) (idx : Nat)
    (body : GpsState → Int × GpsState)
    (hbody : ∀ s, ((body s).2.slots idx).claimed = false)
    (h : (st.slots idx).claimed = false) :
    ((claim_port_i st idx body).2.slots idx).claimed = false := by
  unfold claim_port_i
  cases hb : (claim_port_try st idx DeviceType.gps).1
  · simp [claim_port_try_fst_false hb, h]
  · simp only [hb, if_true]
    exact hbody _

/-- Release property for the inline `claim_port_try` / early-return shape used
by the struct-returning accessors. -/
lemma claim_try_struct_claimed_after {α : Type} (st : GpsState) (idx : Nat)
    (err : α) (f : GpsState → α × GpsState)
    (hbody : ∀ s, ((f s).2.slots idx).claimed = false)
    (h : (st.slots idx).claimed = false) :
    ((if (claim_port_try st idx DeviceType.gps).1
      then f (claim_port_try st idx DeviceType.gps).2
      else (err, (claim_port_try st idx DeviceType.gps).2)).2.slots
        idx).claimed = false := by
  cases hb : (claim_port_try st idx DeviceType.gps).1
  · simp [claim_port_try_fst_false hb, h]
  · simp only [hb, if_true]
    exact hbody _

/-- The claimed-flag of the port is false after each of the 24 accessors
returns (arguments `v1`–`v5` and `rate` cover every accessor signature). -/
def releasedAfterAll (st : GpsState) (port : Nat) (v1 v2 v3 v4 v5 : Flt)
    (rate : Nat) : Prop :=
  ((gps_initialize_full st port v1 v2 v3 v4 v5).2.slots
    (portIndex port)).claimed = false ∧
  ((gps_set_offset st port v1 v2).2.slots (portIndex port)).claimed = false ∧
  ((gps_get_offset st port).2.slots (portIndex port)).claimed = false ∧
  ((gps_set_position st port v1 v2 v3).2.slots (portIndex port)).claimed =
    false ∧
  ((gps_set_data_rate st port rate).2.slots (portIndex port)).claimed =
    false ∧
  ((gps_get_error st port).2.slots (portIndex port)).claimed = false ∧
  ((gps_get_position_and_orientation st port).2.slots
    (portIndex port)).claimed = false ∧
  ((gps_get_position st port).2.slots (portIndex port)).claimed = false ∧
  ((gps_get_position_x st port).2.slots (portIndex port)).claimed = false ∧
  ((gps_get_position_y st port).2.slots (portIndex port)).claimed = false ∧
  ((gps_get_orientation st port).2.slots (portIndex port)).claimed = false ∧
  ((gps_get_pitch st port).2.slots (portIndex port)).claimed = false ∧
  ((gps_get_roll st port).2.slots (portIndex port)).claimed = false ∧
  ((gps_get_yaw st port).2.slots (portIndex port)).claimed = false ∧
  ((gps_get_heading st port).2.slots (portIndex port)).claimed = false ∧
  ((gps_get_heading_raw st port).2.slots (portIndex port)).claimed = false ∧
  ((gps_get_gyro_rate st port).2.slots (portIndex port)).claimed = false ∧
  ((gps_get_gyro_rate_x st port).2.slots (portIndex port)).claimed = false ∧
  ((gps_get_gyro_rate_y st port).2.slots (portIndex port)).claimed = false ∧
  ((gps_get_gyro_rate_z st port).2.slots (portIndex port)).claimed = false ∧
  ((gps_get_accel st port).2.slots (portIndex port)).claimed = false ∧
  ((gps_get_accel_x st port).2.slots (portIndex port)).claimed = false ∧
  ((gps_get_accel_y st port).2.slots (portIndex port)).claimed = false ∧
  ((gps_get_accel_z st port).2.slots (portIndex port)).claimed = false

set_option maxHeartbeats 2000000 in
/-- C3 amended: for every GPS accessor and every port, provided the port was
not already claimed by another holder when the accessor was entered, the
claimed-flag of that port is false after the accessor returns (the accessor
never leaks a claim it acquired).  The original claim, which also demanded
this on the already-claimed failure path, is refuted by
the counterexample. -/
theorem C3_release_on_every_path (st : GpsState) (port : Nat)
    (v1 v2 v3 v4 v5 : Flt) (rate : Nat)
    (h : (st.slots (portIndex port)).claimed = false) :
    releasedAfterAll st port v1 v2 v3 v4 v5 rate := by
  unfold releasedAfterAll
  refine ⟨?_, ?_, ?_, ?_, ?_, ?_, ?_, ?_, ?_, ?_, ?_, ?_, ?_, ?_, ?_, ?_,
    ?_, ?_, ?_, ?_, ?_, ?_, ?_, ?_⟩ <;>
  cases hb : (claim_port_try st (portIndex port) DeviceType.gps).1 with
  | false =>
    simp [gps_initialize_full, gps_set_offset, gps_get_offset,
      gps_set_position, gps_set_data_rate, gps_get_error,
      gps_get_position_and_orientation, gps_get_position, gps_get_position_x,
      gps_get_position_y, gps_get_orientation, gps_get_pitch, gps_get_roll,
      gps_get_yaw, gps_get_heading, gps_get_heading_raw, gps_get_gyro_rate,
      gps_get_gyro_rate_x, gps_get_gyro_rate_y, gps_get_gyro_rate_z,
      gps_get_accel, gps_get_accel_x, gps_get_accel_y, gps_get_accel_z,
      claim_port_i, claim_port_f, claim_port_try_fst_false hb, h]
  | true =>
    simp [gps_initialize_full, gps_set_offset, gps_get_offset,
      gps_set_position, gps_set_data_rate, gps_get_error,
      gps_get_position_and_orientation, gps_get_position, gps_get_position_x,
      gps_get_position_y, gps_get_orientation, gps_get_pitch, gps_get_roll,
      gps_get_yaw, gps_get_heading, gps_get_heading_raw, gps_get_gyro_rate,
      gps_get_gyro_rate_x, gps_get_gyro_rate_y, gps_get_gyro_rate_z,
      gps_get_accel, gps_get_accel_x, gps_get_accel_y, gps_get_accel_z,
      claim_port_i, claim_port_f, hb, return_port, vexDeviceGpsOriginSet,
      vexDeviceGpsInitialPositionSet, vexDeviceGpsDataRateSet,
      vexDeviceGpsOriginGet, vexDeviceGpsErrorGet, vexDeviceGpsDegreesGet,
      vexDeviceGpsHeadingGet, vexDeviceGpsAttitudeGet,
      vexDeviceGpsRawGyroGet, vexDeviceGpsRawAccelGet]

/-- C3 witness: at the demo state the entry flag is false and all 24
accessors leave it false. -/
theorem C3_release_witness :
    (demoState.slots (portIndex 1)).claimed = false ∧
    releasedAfterAll demoState 1 (Flt.val 1) (Flt.val 2) (Flt.val 3)
      (Flt.val 4) (Flt.val 5) 7 :=
  ⟨rfl, C3_release_on_every_path demoState 1 (Flt.val 1) (Flt.val 2)
    (Flt.val 3) (Flt.val 4) (Flt.val 5) 7 rfl⟩

/-! ### C4: out-of-range ports -/

/-- Every accessor applied at an out-of-range index returns exactly its
designated sentinel paired with the entirely unchanged state. -/
def outOfRangeAllSentinels (st : GpsState) (port : Nat)
    (v1 v2 v3 v4 v5 : Flt) (rate : Nat) : Prop :=
  gps_initialize_full st port v1 v2 v3 v4 v5 = (PROS_ERR, st) ∧
  gps_set_offset st port v1 v2 = (PROS_ERR, st) ∧
  gps_get_offset st port = ({ x := Flt.errF, y := Flt.errF }, st) ∧
  gps_set_position st port v1 v2 v3 = (PROS_ERR, st) ∧
  gps_set_data_rate st port rate = (PROS_ERR, st) ∧
  gps_get_error st port = (Flt.errF, st) ∧
  gps_get_position_and_orientation st port = (GPS_STATUS_ERR_INIT, st) ∧
  gps_get_position st port = ({ x := Flt.errF, y := Flt.errF }, st) ∧
  gps_get_position_x st port = (Flt.errF, st) ∧
  gps_get_position_y st port = (Flt.errF, st) ∧
  gps_get_orientation st port =
    ({ pitch := Flt.errF, roll := Flt.errF, yaw := Flt.errF }, st) ∧
  gps_get_pitch st port = (Flt.errF, st) ∧
  gps_get_roll st port = (Flt.errF, st) ∧
  gps_get_yaw st port = (Flt.errF, st) ∧
  gps_get_heading st port = (Flt.errF, st) ∧
  gps_get_heading_raw st port = (Flt.errF, st) ∧
  gps_get_gyro_rate st port = (GPS_RAW_ERR_INIT, st) ∧
  gps_get_gyro_rate_x st port = (Flt.errF, st) ∧
  gps_get_gyro_rate_y st port = (Flt.errF, st) ∧
  gps_get_gyro_rate_z st port = (Flt.errF, st) ∧
  gps_get_accel st port = (GPS_RAW_ERR_INIT, st) ∧
  gps_get_accel_x st port = (Flt.errF, st) ∧
  gps_get_accel_y st port = (Flt.errF, st) ∧
  gps_get_accel_z st port = (Flt.errF, st)

set_option maxHeartbeats 2000000 in
/-- C4: for every port whose index lands outside the valid range, every GPS
accessor returns its designated sentinel (`PROS_ERR` for integer-returning,
`PROS_ERR_F` for double-returning, the all-`PROS_ERR_F` struct for
struct-returning accessors) and the whole state — the registry in
particular — is left unchanged. -/
theorem C4_out_of_range_sentinels (st : GpsState) (port : Nat)
    (v1 v2 v3 v4 v5 : Flt) (rate : Nat)
    (h : numPorts ≤ portIndex port) :
    outOfRangeAllSentinels st port v1 v2 v3 v4 v5 rate := by
  have hc := claim_port_try_out_of_range st (portIndex port) DeviceType.gps h
  unfold outOfRangeAllSentinels
  refine ⟨?_, ?_, ?_, ?_, ?_, ?_, ?_, ?_, ?_, ?_, ?_, ?_, ?_, ?_, ?_, ?_,
    ?_, ?_, ?_, ?_, ?_, ?_, ?_, ?_⟩ <;>
  simp [gps_initialize_full, gps_set_offset, gps_get_offset,
    gps_set_position, gps_set_data_rate, gps_get_error,
    gps_get_position_and_orientation, gps_get_position, gps_get_position_x,
    gps_get_position_y, gps_get_orientation, gps_get_pitch, gps_get_roll,
    gps_get_yaw, gps_get_heading, gps_get_heading_raw, gps_get_gyro_rate,
    gps_get_gyro_rate_x, gps_get_gyro_rate_y, gps_get_gyro_rate_z,
    gps_get_accel, gps_get_accel_x, gps_get_accel_y, gps_get_accel_z,
    claim_port_i, claim_port_f, hc]

/-- C4 witness: public port 22 maps to index 21, which is out of range, and
every accessor at the demo state returns its sentinel with the state
untouched. -/
theorem C4_witness :
    numPorts ≤ portIndex 22 ∧
    outOfRangeAllSentinels demoState 22 (Flt.val 1) (Flt.val 2) (Flt.val 3)
      (Flt.val 4) (Flt.val 5) 7 :=
  ⟨by decide, C4_out_of_range_sentinels demoState 22 (Flt.val 1) (Flt.val 2)
    (Flt.val 3) (Flt.val 4) (Flt.val 5) 7 (by decide)⟩

/-! ### C5: fully-populated sentinel structs on failure -/

/-- On a failed claim every struct-returning accessor yields a struct whose
every field is the `PROS_ERR_F` sentinel. -/
def failureStructsFullySentinel (st : GpsState) (port : Nat) : Prop :=
  (gps_get_offset st port).1 = { x := Flt.errF, y := Flt.errF } ∧
  (gps_get_position_and_orientation st port).1 =
    { x := Flt.errF, y := Flt.errF, pitch := Flt.errF, roll := Flt.errF,
      yaw := Flt.errF } ∧
  (gps_get_position st port).1 = { x := Flt.errF, y := Flt.errF } ∧
  (gps_get_orientation st port).1 =
    { pitch := Flt.errF, roll := Flt.errF, yaw := Flt.errF } ∧
  (gps_get_gyro_rate st port).1 =
    { x := Flt.errF, y := Flt.errF, z := Flt.errF } ∧
  (gps_get_accel st port).1 =
    { x := Flt.errF, y := Flt.errF, z := Flt.errF }

/-- C5: on every failure path (the only failure path of a struct accessor is
a failed claim) the returned struct has all of its fields equal to
`PROS_ERR_F` — no field is left unwritten or partially written. -/
theorem C5_sentinel_structs_fully_populated (st : GpsState) (port : Nat)
    (h : (claim_port_try st (portIndex port) DeviceType.gps).1 = false) :
    failureStructsFullySentinel st port := by
  have hc := claim_port_try_fst_false h
  unfold failureStructsFullySentinel
  refine ⟨?_, ?_, ?_, ?_, ?_, ?_⟩ <;>
  simp [gps_get_offset, gps_get_position_and_orientation, gps_get_position,
    gps_get_orientation, gps_get_gyro_rate, gps_get_accel, hc,
    GPS_STATUS_ERR_INIT, GPS_RAW_ERR_INIT]

/-- C5 witness: at the demo state and out-of-range public port 22 the claim
fails and all six structs come back fully sentinel-populated. -/
theorem C5_witness :
    (claim_port_try demoState (portIndex 22) DeviceType.gps).1 = false ∧
    failureStructsFullySentinel demoState 22 :=
  ⟨by decide, C5_sentinel_structs_fully_populated demoState 22 (by decide)⟩

/-! ### C6: no vendor API call without a successful claim -/

/-- After a failed claim no accessor has appended anything to the vendor
call trace. -/
def noVendorCallOnFailedClaim (st : GpsState) (port : Nat)
    (v1 v2 v3 v4 v5 : Flt) (rate : Nat) : Prop :=
  (gps_initialize_full st port v1 v2 v3 v4 v5).2.calls = st.calls ∧
  (gps_set_offset st port v1 v2).2.calls = st.calls ∧
  (gps_get_offset st port).2.calls = st.calls ∧
  (gps_set_position st port v1 v2 v3).2.calls = st.calls ∧
  (gps_set_data_rate st port rate).2.calls = st.calls ∧
  (gps_get_error st port).2.calls = st.calls ∧
  (gps_get_position_and_orientation st port).2.calls = st.calls ∧
  (gps_get_position st port).2.calls = st.calls ∧
  (gps_get_position_x st port).2.calls = st.calls ∧
  (gps_get_position_y st port).2.calls = st.calls ∧
  (gps_get_orientation st port).2.calls = st.calls ∧
  (gps_get_pitch st port).2.calls = st.calls ∧
  (gps_get_roll st port).2.calls = st.calls ∧
  (gps_get_yaw st port).2.calls = st.calls ∧
  (gps_get_heading st port).2.calls = st.calls ∧
  (gps_get_heading_raw st port).2.calls = st.calls ∧
  (gps_get_gyro_rate st port).2.calls = st.calls ∧
  (gps_get_gyro_rate_x st port).2.calls = st.calls ∧
  (gps_get_gyro_rate_y st port).2.calls = st.calls ∧
  (gps_get_gyro_rate_z st port).2.calls = st.calls ∧
  (gps_get_accel st port).2.calls = st.calls ∧
  (gps_get_accel_x st port).2.calls = st.calls ∧
  (gps_get_accel_y st port).2.calls = st.calls ∧
  (gps_get_accel_z st port).2.calls = st.calls

set_option maxHeartbeats 2000000 in
/-- C6: whenever the claim on the port fails — out-of-range, not installed,
wrong device type, or already claimed — no accessor invokes any vendor device
API function: the vendor call trace is exactly what it was before the call. -/
theorem C6_no_vendor_call_without_claim (st : GpsState) (port : Nat)
    (v1 v2 v3 v4 v5 : Flt) (rate : Nat)
    (h : (claim_port_try st (portIndex port) DeviceType.gps).1 = false) :
    noVendorCallOnFailedClaim st port v1 v2 v3 v4 v5 rate := by
  have hc := claim_port_try_fst_false h
  unfold noVendorCallOnFailedClaim
  refine ⟨?_, ?_, ?_, ?_, ?_, ?_, ?_, ?_, ?_, ?_, ?_, ?_, ?_, ?_, ?_, ?_,
    ?_, ?_, ?_, ?_, ?_, ?_, ?_, ?_⟩ <;>
  simp [gps_initialize_full, gps_set_offset, gps_get_offset,
    gps_set_position, gps_set_data_rate, gps_get_error,
    gps_get_position_and_orientation, gps_get_position, gps_get_position_x,
    gps_get_position_y, gps_get_orientation, gps_get_pitch, gps_get_roll,
    gps_get_yaw, gps_get_heading, gps_get_heading_raw, gps_get_gyro_rate,
    gps_get_gyro_rate_x, gps_get_gyro_rate_y, gps_get_gyro_rate_z,
    gps_get_accel, gps_get_accel_x, gps_get_accel_y, gps_get_accel_z,
    claim_port_i, claim_port_f, hc]

/-- C6 witness: at the demo state and the out-of-range public port 22 the
claim fails and no accessor extends the (empty) vendor call trace. -/
theorem C6_witness :
    (claim_port_try demoState (portIndex 22) DeviceType.gps).1 = false ∧
    noVendorCallOnFailedClaim demoState 22 (Flt.val 1) (Flt.val 2)
      (Flt.val 3) (Flt.val 4) (Flt.val 5) 7 :=
  ⟨by decide, C6_no_vendor_call_without_claim demoState 22 (Flt.val 1)
    (Flt.val 2) (Flt.val 3) (Flt.val 4) (Flt.val 5) 7 (by decide)⟩

/-! ### C8: one device read per bulk accessor -/

/-- Each bulk accessor appends exactly one vendor read to the trace and fills
every output field from that read's record. -/
def bulkSingleRead (st : GpsState) (port : Nat) : Prop :=
  ((gps_get_position_and_orientation st port).2.calls =
    st.calls ++ [VendorCall.attitudeGet (portIndex port)] ∧
   (gps_get_position_and_orientation st port).1 =
    { x := (st.attitude (portIndex port)).position_x,
      y := (st.attitude (portIndex port)).position_y,
      pitch := (st.attitude (portIndex port)).pitch,
      roll := (st.attitude (portIndex port)).roll,
      yaw := (st.attitude (portIndex port)).yaw }) ∧
  ((gps_get_position st port).2.calls =
    st.calls ++ [VendorCall.attitudeGet (portIndex port)] ∧
   (gps_get_position st port).1 =
    { x := (st.attitude (portIndex port)).position_x,
      y := (st.attitude (portIndex port)).position_y }) ∧
  ((gps_get_orientation st port).2.calls =
    st.calls ++ [VendorCall.attitudeGet (portIndex port)] ∧
   (gps_get_orientation st port).1 =
    { pitch := (st.attitude (portIndex port)).pitch,
      roll := (st.attitude (portIndex port)).roll,
      yaw := (st.attitude (portIndex port)).yaw }) ∧
  ((gps_get_gyro_rate st port).2.calls =
    st.calls ++ [VendorCall.rawGyroGet (portIndex port)] ∧
   (gps_get_gyro_rate st port).1 =
    { x := (st.gyro (portIndex port)).x, y := (st.gyro (portIndex port)).y,
      z := (st.gyro (portIndex port)).z }) ∧
  ((gps_get_accel st port).2.calls =
    st.calls ++ [VendorCall.rawAccelGet (portIndex port)] ∧
   (gps_get_accel st port).1 =
    { x := (st.accel (portIndex port)).x, y := (st.accel (portIndex port)).y,
      z := (st.accel (portIndex port)).z })

set_option maxHeartbeats 1000000 in
/-- C8: for every port whose claim succeeds, each bulk accessor performs
exactly one vendor device read (one trace entry) and populates all of its
output fields from that single read. -/
theorem C8_bulk_accessors_single_read (st : GpsState) (port : Nat)
    (h : (claim_port_try st (portIndex port) DeviceType.gps).1 = true) :
    bulkSingleRead st port := by
  have hc := claim_port_try_fst_true h
  unfold bulkSingleRead
  refine ⟨⟨?_, ?_⟩, ⟨?_, ?_⟩, ⟨?_, ?_⟩, ⟨?_, ?_⟩, ⟨?_, ?_⟩⟩ <;>
  simp [gps_get_position_and_orientation, gps_get_position,
    gps_get_orientation, gps_get_gyro_rate, gps_get_accel, hc,
    vexDeviceGpsAttitudeGet, vexDeviceGpsRawGyroGet, vexDeviceGpsRawAccelGet,
    return_port]

/-- C8 witness: at the demo state on port 1 the claim succeeds and every bulk
accessor logs exactly one read and copies its fields. -/
theorem C8_witness :
    (claim_port_try demoState (portIndex 1) DeviceType.gps).1 = true ∧
    bulkSingleRead demoState 1 :=
  ⟨rfl, C8_bulk_accessors_single_read demoState 1 rfl⟩

/-! ### C10: scalar accessors agree with bulk accessors -/

/-- C10: with the device state fixed (the attitude oracle in this embedding
returns the same record on consecutive reads) and a succeeding claim, the
scalar position accessors agree with the corresponding fields of the bulk
position accessor. -/
theorem C10_scalar_matches_bulk (st : GpsState) (port : Nat)
    (h : (claim_port_try st (portIndex port) DeviceType.gps).1 = true) :
    (gps_get_position_x st port).1 = (gps_get_position st port).1.x ∧
    (gps_get_position_y st port).1 = (gps_get_position st port).1.y := by
  have hc := claim_port_try_fst_true h
  constructor <;>
  simp [gps_get_position_x, gps_get_position_y, gps_get_position,
    claim_port_f, hc, vexDeviceGpsAttitudeGet, return_port]

/-- C10 witness: at the demo state on port 1 the scalar accessors return the
x and y fields of the bulk position result. -/
theorem C10_witness :
    (claim_port_try demoState (portIndex 1) DeviceType.gps).1 = true ∧
    ((gps_get_position_x demoState 1).1 = (gps_get_position demoState 1).1.x ∧
     (gps_get_position_y demoState 1).1 =
       (gps_get_position demoState 1).1.y) :=
  ⟨rfl, C10_scalar_matches_bulk demoState 1 rfl⟩

/-! ### C7: offset round-trip -/

/-- C7: on a valid, installed, correctly-typed, unclaimed GPS port, setting
the offset and then reading it back (with no intervening writer; both claims
succeed) returns exactly the pair that was set; in particular (3.0, -1.5)
round-trips. -/
theorem C7_offset_round_trip (st : GpsState) (port : Nat) (a b : Flt)
    (h1 : portIndex port < numPorts)
    (h2 : (st.slots (portIndex port)).installed = true)
    (h3 : (st.slots (portIndex port)).devType = DeviceType.gps)
    (h4 : (st.slots (portIndex port)).claimed = false) :
    (gps_get_offset (gps_set_offset st port a b).2 port).1 =
      { x := a, y := b } ∧
    (gps_get_offset
      (gps_set_offset st port (Flt.val 3) (Flt.val (-(3 : ℚ)/2))).2 port).1 =
      { x := Flt.val 3, y := Flt.val (-(3 : ℚ)/2) } := by
  have key : ∀ (u v : Flt),
      (gps_get_offset (gps_set_offset st port u v).2 port).1 =
        { x := u, y := v } := by
    intro u v
    have hc1 := claim_port_try_success st (portIndex port) DeviceType.gps
      h1 h2 h3 h4
    simp [gps_set_offset, claim_port_i, hc1, vexDeviceGpsOriginSet,
      return_port, gps_get_offset, claim_port_try, vexDeviceGpsOriginGet,
      Nat.not_le.mpr h1, h2, h3, h4]
  exact ⟨key a b, key (Flt.val 3) (Flt.val (-(3 : ℚ)/2))⟩

/-- C7 witness: at the demo state on port 1 both the generic pair and the
concrete (3.0, -1.5) pair round-trip through set-then-get. -/
theorem C7_witness :
    (portIndex 1 < numPorts ∧
     (demoState.slots (portIndex 1)).installed = true ∧
     (demoState.slots (portIndex 1)).devType = DeviceType.gps ∧
     (demoState.slots (portIndex 1)).claimed = false) ∧
    ((gps_get_offset
        (gps_set_offset demoState 1 (Flt.val 7) (Flt.val 9)).2 1).1 =
      { x := Flt.val 7, y := Flt.val 9 } ∧
     (gps_get_offset
        (gps_set_offset demoState 1 (Flt.val 3)
          (Flt.val (-(3 : ℚ)/2))).2 1).1 =
      { x := Flt.val 3, y := Flt.val (-(3 : ℚ)/2) }) :=
  ⟨⟨by decide, rfl, rfl, rfl⟩,
   C7_offset_round_trip demoState 1 (Flt.val 7) (Flt.val 9) (by decide)
     rfl rfl rfl⟩

/-! ### C9: the USD forwarding wrappers -/

/-- Modelled from the spec: the world behind the two C functions
`usd_is_installed` and `usd_list_files` (implemented outside this excerpt) —
the value the first returns, and for the second a map from the path argument
and buffer length to the returned status and the bytes written into the
buffer. -/
structure UsdWorld where
  installedVal : Int
  listFilesFn : String → Int → Int × String

/-- Modelled from the spec: the C function `usd_is_installed`, an opaque
collaborator below the wrapper. -/
def usd_is_installed (w : UsdWorld) : Int := w.installedVal

/-- Modelled from the spec: the C function `usd_list_files`; the returned
pair is its status code and the final buffer contents. -/
def usd_list_files (w : UsdWorld) (path : String) (len : Int) :
    Int × String := w.listFilesFn path len

/-- Source: `pros::usd::is_installed` in `vdml_usd.cpp` — a one-line
forwarding wrapper. -/
def pros_usd_is_installed (w : UsdWorld) : Int := usd_is_installed w

/-- Source: `pros::usd::list_files` in `vdml_usd.cpp` — a one-line
forwarding wrapper. -/
def pros_usd_list_files (w : UsdWorld) (path : String) (len : Int) :
    Int × String := usd_list_files w path len

/-- C9: the C++ wrappers forward to the C functions exactly: on every world,
path and length, `pros::usd::is_installed` returns precisely
`usd_is_installed()` and `pros::usd::list_files` returns precisely
`usd_list_files(path, buffer, len)`, with no effect added. -/
theorem C9_usd_wrappers_forward (w : UsdWorld) (path : String) (len : Int) :
    pros_usd_is_installed w = usd_is_installed w ∧
    pros_usd_list_files w path len = usd_list_files w path len :=
  ⟨rfl, rfl⟩
